import Mathlib

/-!
# Verification of sarpy SICD polynomial and projection-precondition code

Shallow embedding of the polynomial operations of
`sarpy/io/complex/sicd_elements/blocks.py` (`Poly1DType`, `Poly2DType`) and of
the projection preconditions of `sarpy/io/complex/sicd_elements/SICD.py`
(`SICDType.can_project_coordinates`, `SICDType.define_coa_projection`,
`SICDType.ImageFormType`, `SICDType._validate_image_form`).

float64 coefficients are embedded as `ℚ` (the algorithms use only ring
operations, so over `ℚ` the identities are exact); numpy 1-D arrays become
`List ℚ` and 2-D arrays `List (List ℚ)` (the `Coefs` setters guarantee
rectangular 2-D arrays).  Logging calls are embedded by recording the name of
the field each message cites.
-/

namespace Sarpy

/-! ## Poly1DType: evaluation and `shift`

`Poly1DType.__call__` delegates to `numpy.polynomial.polynomial.polyval`,
which evaluates `c[0] + x*(c[1] + x*(...))` (Horner). -/

/-- Polynomial evaluation of an ascending coefficient list, as
`numpy.polynomial.polynomial.polyval` does (Horner form). -/
def polyEval : List ℚ → ℚ → ℚ
  | [], _ => 0
  | a :: rest, x => a + x * polyEval rest x

/-- One pass of the `Poly1DType.shift` Horner loop:
`out[index:siz-1] -= t_0*out[index+1:siz]` with `index = lo`.
Every position `j ≥ lo` that has a successor is replaced by
`out[j] - t_0 * out[j+1]`; the right-hand side is read from the incoming
array (numpy evaluates `t_0*out[index+1:siz]` into a temporary first). -/
def shiftPass (t0 : ℚ) : ℕ → List ℚ → List ℚ
  | _, [] => []
  | 0, [a] => [a]
  | 0, a :: b :: rest => (a - t0 * b) :: shiftPass t0 0 (b :: rest)
  | l + 1, a :: rest => a :: shiftPass t0 l rest

/-- The `for i in range(siz)` loop of `Poly1DType.shift`: the pass with
`index = siz-1-i` runs for `i = 1, …, siz-1`, i.e. passes with
`lo = m-1, m-2, …, 0` in that order where `m = siz - 1`. -/
def passesDown (t0 : ℚ) : ℕ → List ℚ → List ℚ
  | 0, c => c
  | m + 1, c => passesDown t0 m (shiftPass t0 m c)

/-- The scaling step `out *= numpy.power(alpha, numpy.arange(out.size))`:
entry `k` is multiplied by `alpha ^ k` (`k` starts at the accumulator). -/
def scalePowAux (α : ℚ) : ℕ → List ℚ → List ℚ
  | _, [] => []
  | k, a :: rest => a * α ^ k :: scalePowAux α (k + 1) rest

/-- First guarded stage of `Poly1DType.shift`: the Horner passes run only
when `t_0 != 0 and out.size > 1`. -/
def shiftStage1 (t0 : ℚ) (c : List ℚ) : List ℚ :=
  if t0 ≠ 0 ∧ 1 < c.length then passesDown t0 (c.length - 1) c else c

/-- Second guarded stage of `Poly1DType.shift`: the power scaling runs only
when `alpha != 1 and out.size > 1`. -/
def shiftStage2 (α : ℚ) (out : List ℚ) : List ℚ :=
  if α ≠ 1 ∧ 1 < out.length then scalePowAux α 0 out else out

/-- `Poly1DType.shift(t_0, alpha)` from
`sarpy/io/complex/sicd_elements/blocks.py`: copy the coefficients, run the
Horner passes when `t_0 != 0 and out.size > 1`, then scale by powers of
`alpha` when `alpha != 1 and out.size > 1`. -/
def shift1d (c : List ℚ) (t0 α : ℚ) : List ℚ :=
  shiftStage2 α (shiftStage1 t0 c)

/-! ## Poly2DType: `shift`

`Poly2DType.Coefs` is a rectangular 2-D float64 array; it is embedded as a
list of rows.  `Poly2DType.shift(t1_shift, t1_scale, t2_shift, t2_scale)`
applies the same Horner-pass/power-scale pair first down axis 1 (rows) and
then along axis 2 (columns).  NOTE: the axis-2 Horner loop of the source
(blocks.py line 1170) subtracts `t1_shift*out[:, index+1:siz]` — the guard
tests `t2_shift` but the body uses `t1_shift` — and the embedding reproduces
that literally. -/

/-- Row subtraction `a - t*b` (numpy row arithmetic on equal-length rows). -/
def rowSub (a b : List ℚ) : List ℚ := a.zipWith (· - ·) b

/-- Row scaling `t * a`. -/
def rowSmul (t : ℚ) (a : List ℚ) : List ℚ := a.map (t * ·)

/-- Axis-1 analogue of `shiftPass`: the slice update
`out[index:siz-1, :] -= t1_shift*out[index+1:siz, :]` acting on whole rows. -/
def shiftPassRows (t0 : ℚ) : ℕ → List (List ℚ) → List (List ℚ)
  | _, [] => []
  | 0, [a] => [a]
  | 0, a :: b :: rest => rowSub a (rowSmul t0 b) :: shiftPassRows t0 0 (b :: rest)
  | l + 1, a :: rest => a :: shiftPassRows t0 l rest

/-- Axis-1 analogue of `passesDown`. -/
def passesDownRows (t0 : ℚ) : ℕ → List (List ℚ) → List (List ℚ)
  | 0, c => c
  | m + 1, c => passesDownRows t0 m (shiftPassRows t0 m c)

/-- Axis-1 scaling `numpy.power(t1_scale, numpy.arange(shape0))[:, newaxis]*out`:
row `i` is multiplied by `t1_scale ^ i`. -/
def scalePowRowsAux (α : ℚ) : ℕ → List (List ℚ) → List (List ℚ)
  | _, [] => []
  | k, a :: rest => rowSmul (α ^ k) a :: scalePowRowsAux α (k + 1) rest

/-- `out.shape[1]` of a rectangular row-list. -/
def numCols (c : List (List ℚ)) : ℕ := (c.headD []).length

/-- `Poly2DType.shift(t1_shift, t1_scale, t2_shift, t2_scale)` from
`sarpy/io/complex/sicd_elements/blocks.py`.  The third stage faithfully
reproduces the source's use of `t1_shift` inside the axis-2 Horner loop
(the guard tests `t2_shift != 0`, the subtracted amount is `t1_shift`). -/
def shift2d (c : List (List ℚ)) (t1_shift t1_scale t2_shift t2_scale : ℚ) :
    List (List ℚ) :=
  let out1 := if t1_shift ≠ 0 ∧ 1 < c.length
    then passesDownRows t1_shift (c.length - 1) c else c
  let out2 := if t1_scale ≠ 1 ∧ 1 < out1.length
    then scalePowRowsAux t1_scale 0 out1 else out1
  let out3 := if t2_shift ≠ 0 ∧ 1 < numCols out2
    then out2.map (fun row => passesDown t1_shift (numCols out2 - 1) row) else out2
  if t2_scale ≠ 1 ∧ 1 < numCols out3
    then out3.map (fun row => scalePowAux t2_scale 0 row) else out3

/-! ## Poly1DType: `Coefs` setter, `derivative`, and statefulness

The `Coefs` setter accepts a value that is `None`, a python list/tuple
(converted by `numpy.array`, so a flat list becomes a 1-D array and a nested
list a 2-D array), an `ndarray`, or anything else (e.g. a bare scalar).
`PyValue` captures those shapes. -/

/-- The shapes a value assigned to `Poly1DType.Coefs` can take. -/
inductive PyValue where
  | pynone : PyValue
  | scalar : ℚ → PyValue
  | arr1 : List ℚ → PyValue
  | arr2 : List (List ℚ) → PyValue
deriving DecidableEq, Repr

/-- The `Poly1DType.Coefs` setter (blocks.py lines 823-840): `None` raises,
non-array input raises, a 2-D array raises, and a 1-D array (or a flat
list/tuple converted to one) is stored. -/
def coefsSetter1D : PyValue → Except String (List ℚ)
  | .pynone => .error "ValueError: The coefficient array for a Poly1DType instance must be defined."
  | .scalar _ => .error "ValueError: Coefs for class Poly1D must be a list or numpy.ndarray."
  | .arr2 _ => .error "ValueError: Coefs for class Poly1D must be one-dimensional."
  | .arr1 c => .ok c

/-- One formal-derivative step of `numpy.polynomial.polynomial.polyder`
(`der[j - 1] = j*c[j]` for `j = n-1, …, 1`), with the multiplier accumulator
starting at `k`. -/
def polyderStepAux : ℕ → List ℚ → List ℚ
  | _, [] => []
  | k, a :: rest => (k : ℚ) * a :: polyderStepAux (k + 1) rest

/-- A single derivative pass of `polyder`: `[1*c[1], 2*c[2], …, (n-1)*c[n-1]]`. -/
def polyderStep (c : List ℚ) : List ℚ := polyderStepAux 1 c.tail

/-- `numpy.polynomial.polynomial.polyder(c, m)` for `m ≥ 0` (with `scl = 1`):
`m = 0` returns the coefficients unchanged; `m ≥ len(c)` returns `c[:1]*0`;
otherwise the derivative step is applied `m` times. -/
def polyderList (c : List ℚ) (m : ℕ) : List ℚ :=
  if m = 0 then c
  else if c.length ≤ m then (c.take 1).map (fun _ => 0)
  else polyderStep^[m] c

/-- `Poly1DType.derivative(der_order)` (blocks.py lines 862-881) delegates to
`numpy.polynomial.polynomial.polyder`, which raises
`ValueError("The order of derivation must be non-negative")` for a negative
order.  numpy is modelled from its published implementation. -/
def polyder (c : List ℚ) (m : ℤ) : Except String (List ℚ) :=
  if m < 0 then .error "ValueError: The order of derivation must be non-negative"
  else .ok (polyderList c m.toNat)

/-- `Poly1DType.shift` with the instance state made explicit: the source
copies `self._coefs` into `out` (`out = numpy.copy(self._coefs)`) and only
ever writes `out`, so the instance's coefficient array after the call is the
array it held before; the pair is (returned coefficients, state after). -/
def shiftOp (state : List ℚ) (t0 α : ℚ) : List ℚ × List ℚ :=
  (shift1d state t0 α, state)

/-- `Poly1DType.derivative` with the instance state made explicit:
`polyder` copies its input (`numpy.array(c, copy=True)`) and writes only
fresh arrays, so the instance state is returned unchanged. -/
def derivativeOp (state : List ℚ) (m : ℤ) : Except String (List ℚ) × List ℚ :=
  (polyder state m, state)

/-- The textbook formal derivative of an ascending coefficient sequence,
following the spec's words: multiply each coefficient by its exponent and
drop the constant term. -/
def formalDeriv (c : List ℚ) : List ℚ :=
  (c.enum.map fun p => (p.1 : ℚ) * p.2).tail

/-! ## SICDType: the fields consulted by the projection preconditions

Each metadata attribute that `can_project_coordinates`, `ImageFormType`,
`_validate_image_form` and `define_coa_projection` test for being populated
is embedded as an `Option`; leaf payloads the checks never inspect are
`Unit`, numeric leaves are `ℚ`/`ℤ` and enumeration leaves are `String`.
The `GridType.Type` field is `Type'` because `Type` is a Lean keyword. -/

/-- `GeoData.SCP`: the scene center point; only its `ECF` slot is tested. -/
structure SCPType where
  ECF : Option Unit
deriving DecidableEq, Repr

structure GeoDataType where
  SCP : Option SCPType
deriving DecidableEq, Repr

/-- `ImageData.SCPPixel` (a `RowColType`). -/
structure RowColType where
  Row : Option ℤ
  Col : Option ℤ
deriving DecidableEq, Repr

structure ImageDataType where
  FirstRow : Option ℤ
  FirstCol : Option ℤ
  SCPPixel : Option RowColType
deriving DecidableEq, Repr

structure PositionType where
  ARPPoly : Option Unit
deriving DecidableEq, Repr

/-- `Grid.Row` / `Grid.Col` (a `DirParamType`): sample spacing and the
ECF unit vector. -/
structure DirParamType where
  SS : Option ℚ
  UVectECF : Option Unit
deriving DecidableEq, Repr

structure GridType where
  TimeCOAPoly : Option Unit
  Row : Option DirParamType
  Col : Option DirParamType
  Type' : Option String
deriving DecidableEq, Repr

structure ImageFormationType where
  ImageFormAlgo : Option String
deriving DecidableEq, Repr

structure PFAType where
  PolarAngPoly : Option Unit
  SpatialFreqSFPoly : Option Unit
deriving DecidableEq, Repr

structure RgAzCompType where
  AzSF : Option ℚ
deriving DecidableEq, Repr

structure INCAType where
  R_CA_SCP : Option ℚ
  TimeCAPoly : Option Unit
  DRateSFPoly : Option Unit
deriving DecidableEq, Repr

structure RMAType where
  INCA : Option INCAType
deriving DecidableEq, Repr

/-- The construction arguments of a `point_projection.COAProjection`; the
cached `_coa_projection` object is modelled by them. -/
structure COAParams where
  delta_arp : Option (List ℚ)
  delta_varp : Option (List ℚ)
  range_bias : Option ℚ
  adj_params_frame : String
deriving DecidableEq, Repr

structure SICDType where
  GeoData : Option GeoDataType
  ImageData : Option ImageDataType
  Position : Option PositionType
  Grid : Option GridType
  ImageFormation : Option ImageFormationType
  RgAzComp : Option RgAzCompType
  PFA : Option PFAType
  RMA : Option RMAType
  coa_projection : Option COAParams
deriving DecidableEq, Repr

/-- Outcome of `can_project_coordinates`: the returned boolean, the fields
cited by `logging.error` calls (at most one, since the method returns at the
first failure) and the fields cited by `logging.warning` calls. -/
structure ProjDiag where
  ok : Bool
  errors : List String
  warnings : List String
deriving DecidableEq, Repr

/-- Python's `==` between a `str` and a `list` is always `False`, so the
source's `self.Grid.Type == ['XRGYCR', 'XCTYAT', 'PLANE']`
(SICD.py line 620) is `False` for every grid type string. -/
def str_eq_list_literal (_gtype : String) : Bool := false

/-- The `Grid.Type`-specific tail of `can_project_coordinates`
(SICD.py lines 560-631), taking the already-destructured grid members and
the warnings accumulated so far. -/
def canProjectGridDispatch (s : SICDType) (row col : DirParamType)
    (gtype : String) (warns : List String) : ProjDiag :=
  if gtype = "RGAZIM" then
    match s.ImageFormation with
    | none => ⟨false, ["ImageFormation"], warns⟩
    | some imf =>
      match imf.ImageFormAlgo with
      | none => ⟨false, ["ImageFormation.ImageFormAlgo"], warns⟩
      | some algo =>
        if algo = "PFA" then
          match s.PFA with
          | none => ⟨false, ["PFA"], warns⟩
          | some pfa =>
            match pfa.PolarAngPoly with
            | none => ⟨false, ["PFA.PolarAngPoly"], warns⟩
            | some _ =>
              match pfa.SpatialFreqSFPoly with
              | none => ⟨false, ["PFA.SpatialFreqSFPoly"], warns⟩
              | some _ => ⟨true, [], warns⟩
        else if algo = "RGAZCOMP" then
          match s.RgAzComp with
          | none => ⟨false, ["RgAzComp"], warns⟩
          | some rgaz =>
            match rgaz.AzSF with
            | none => ⟨false, ["RgAzComp.AzSF"], warns⟩
            | some _ => ⟨true, [], warns⟩
        else ⟨false, ["Unhandled ImageFormation.ImageFormAlgo"], warns⟩
  else if gtype = "RGZERO" then
    match s.RMA with
    | none => ⟨false, ["RMA.INCA"], warns⟩
    | some rma =>
      match rma.INCA with
      | none => ⟨false, ["RMA.INCA"], warns⟩
      | some inca =>
        if inca.R_CA_SCP = none ∨ inca.TimeCAPoly = none ∨ inca.DRateSFPoly = none
        then ⟨false, ["RMA.INCA.R_CA_SCP, TimeCAPoly, or DRateSFPoly"], warns⟩
        else ⟨true, [], warns⟩
  else if str_eq_list_literal gtype then
    -- dead branch: a Python string never equals the list literal
    if row.UVectECF = none ∨ col.UVectECF = none
    then ⟨false, ["Grid.Row.UVectECF or Grid.Col.UVectECF"], warns⟩
    else ⟨true, [], warns⟩
  else ⟨false, ["Unhandled Grid.Type"], warns⟩

/-- `SICDType.can_project_coordinates` (SICD.py lines 483-631): returns
`True` immediately when a COA projection is cached, otherwise walks the
dependency chain and returns `False` at the first missing field, recording
the field each `logging.error`/`logging.warning` call cites. -/
def can_project_coordinates (s : SICDType) : ProjDiag :=
  match s.coa_projection with
  | some _ => ⟨true, [], []⟩
  | none =>
    match s.GeoData with
    | none => ⟨false, ["GeoData"], []⟩
    | some geodata =>
      match geodata.SCP with
      | none => ⟨false, ["GeoData.SCP"], []⟩
      | some scp =>
        match scp.ECF with
        | none => ⟨false, ["GeoData.SCP.ECF"], []⟩
        | some _ =>
          match s.ImageData with
          | none => ⟨false, ["ImageData"], []⟩
          | some imd =>
            match imd.FirstRow with
            | none => ⟨false, ["ImageData.FirstRow"], []⟩
            | some _ =>
              match imd.FirstCol with
              | none => ⟨false, ["ImageData.FirstCol"], []⟩
              | some _ =>
                match imd.SCPPixel with
                | none => ⟨false, ["ImageData.SCPPixel"], []⟩
                | some scppixel =>
                  match scppixel.Row with
                  | none => ⟨false, ["ImageData.SCPPixel.Row"], []⟩
                  | some _ =>
                    match scppixel.Col with
                    | none => ⟨false, ["ImageData.SCPPixel.Col"], []⟩
                    | some _ =>
                      match s.Position with
                      | none => ⟨false, ["Position"], []⟩
                      | some pos =>
                        match pos.ARPPoly with
                        | none => ⟨false, ["Position.ARPPoly"], []⟩
                        | some _ =>
                          match s.Grid with
                          | none => ⟨false, ["Grid"], []⟩
                          | some grid =>
                            let warns :=
                              match grid.TimeCOAPoly with
                              | none => ["Grid.TimeCOAPoly"]
                              | some _ => []
                            match grid.Row with
                            | none => ⟨false, ["Grid.Row"], warns⟩
                            | some row =>
                              match row.SS with
                              | none => ⟨false, ["Grid.Row.SS"], warns⟩
                              | some _ =>
                                match grid.Col with
                                | none => ⟨false, ["Grid.Col"], warns⟩
                                | some col =>
                                  match col.SS with
                                  | none => ⟨false, ["Grid.Col.SS"], warns⟩
                                  | some _ =>
                                    match grid.Type' with
                                    | none => ⟨false, ["Grid.Type"], warns⟩
                                    | some gtype =>
                                      canProjectGridDispatch s row col gtype warns

/-- `SICDType.define_coa_projection` (SICD.py lines 633-666) with the
constructed `COAProjection` modelled by its construction parameters.  The
method never raises in its failure modes: it returns early (leaving the
cache untouched) when `can_project_coordinates()` is false or when a
projection is already defined and `overide` is false. -/
def define_coa_projection (s : SICDType) (p : COAParams) (overide : Bool) :
    SICDType :=
  if (can_project_coordinates s).ok = false then s
  else if s.coa_projection.isSome ∧ overide = false then s
  else { s with coa_projection := some p }

/-- `SICDType._choice[0]['collection']`. -/
def choiceCollection : List String := ["RgAzComp", "PFA", "RMA"]

/-- `getattr(self, attribute) is not None` for the choice attributes. -/
def getAttrPopulated (s : SICDType) (attrib : String) : Bool :=
  if attrib = "RgAzComp" then s.RgAzComp.isSome
  else if attrib = "PFA" then s.PFA.isSome
  else if attrib = "RMA" then s.RMA.isSome
  else false

/-- `SICDType.ImageFormType` (SICD.py lines 184-195): the first populated
attribute among `RgAzComp`, `PFA`, `RMA`, else `'OTHER'`. -/
def ImageFormType (s : SICDType) : String :=
  (choiceCollection.find? (getAttrPopulated s)).getD "OTHER"

/-- The number of populated choice attributes (the length of the
`alg_types` list built by `_validate_image_form`). -/
def populatedAlgCount (s : SICDType) : ℕ :=
  (choiceCollection.filter (getAttrPopulated s)).length

/-- Assignment `self.ImageFormation.ImageFormAlgo = v`. -/
def setImageFormAlgo (s : SICDType) (v : String) : SICDType :=
  match s.ImageFormation with
  | none => s
  | some imf => { s with ImageFormation := some { imf with ImageFormAlgo := some v } }

/-- `SICDType._validate_image_form` (SICD.py lines 236-284), returning the
boolean outcome together with the (possibly mutated) structure: the method
overwrites `ImageFormation.ImageFormAlgo` in its repair branches. -/
def validate_image_form (s : SICDType) : Bool × SICDType :=
  match s.ImageFormation with
  | none => (false, s)
  | some imf =>
    match choiceCollection.filter (getAttrPopulated s) with
    | [] =>
      match imf.ImageFormAlgo with
      | none => (true, setImageFormAlgo s "OTHER")
      | some a => if a ≠ "OTHER" then (false, s) else (true, s)
    | [alg] =>
      match imf.ImageFormAlgo with
      | some a => if a = alg.toUpper then (true, s)
          else (true, setImageFormAlgo s alg.toUpper)
      | none => (true, setImageFormAlgo s alg.toUpper)
    | _ => (false, s)

/-! ## Concrete instances used by the closed evaluations and witnesses -/

/-- Default adjustable parameters of `define_coa_projection`. -/
def pEx : COAParams := ⟨none, none, none, "ECF"⟩

/-- A SICD with nothing populated. -/
def sicdEmpty : SICDType := ⟨none, none, none, none, none, none, none, none, none⟩

/-- A SICD with a cached COA projection and no metadata at all. -/
def sicdCachedEx : SICDType :=
  ⟨none, none, none, none, none, none, none, none, some pEx⟩

/-- A SICD whose `GeoData` is populated but whose `GeoData.SCP` is not. -/
def sicdScpMissingEx : SICDType :=
  { sicdEmpty with GeoData := some ⟨none⟩ }

/-- A fully populated flat-plane product: `Grid.Type = 'PLANE'` with both
unit vectors and every other projection-required field set. -/
def sicdPlaneEx : SICDType :=
  { GeoData := some ⟨some ⟨some ()⟩⟩
    ImageData := some ⟨some 0, some 0, some ⟨some 128, some 128⟩⟩
    Position := some ⟨some ()⟩
    Grid := some ⟨some (), some ⟨some 1, some ()⟩, some ⟨some 1, some ()⟩, some "PLANE"⟩
    ImageFormation := some ⟨some "OTHER"⟩
    RgAzComp := none
    PFA := none
    RMA := none
    coa_projection := none }

/-- A fully populated `RGZERO`/RMA-INCA product with `Grid.TimeCOAPoly`
left unpopulated. -/
def sicdRGZeroNoTimeCOAEx : SICDType :=
  { GeoData := some ⟨some ⟨some ()⟩⟩
    ImageData := some ⟨some 0, some 0, some ⟨some 10, some 20⟩⟩
    Position := some ⟨some ()⟩
    Grid := some ⟨none, some ⟨some 1, some ()⟩, some ⟨some 1, some ()⟩, some "RGZERO"⟩
    ImageFormation := some ⟨some "RMA"⟩
    RgAzComp := none
    PFA := none
    RMA := some ⟨some ⟨some 800000, some (), some ()⟩⟩
    coa_projection := none }

/-- A `RGAZIM`/PFA product in which only `PFA.PolarAngPoly` is missing. -/
def sicdPFANoPolarAngEx : SICDType :=
  { GeoData := some ⟨some ⟨some ()⟩⟩
    ImageData := some ⟨some 0, some 0, some ⟨some 10, some 20⟩⟩
    Position := some ⟨some ()⟩
    Grid := some ⟨some (), some ⟨some 1, some ()⟩, some ⟨some 1, some ()⟩, some "RGAZIM"⟩
    ImageFormation := some ⟨some "PFA"⟩
    RgAzComp := none
    PFA := some ⟨none, some ()⟩
    RMA := none
    coa_projection := none }

/-- A SICD with two image-formation families populated at once. -/
def sicdTwoAlgsEx : SICDType :=
  { sicdEmpty with
    ImageFormation := some ⟨some "PFA"⟩
    RgAzComp := some ⟨some 1⟩
    PFA := some ⟨some (), some ()⟩ }

/-! ## Lemmas about the `Poly1DType.shift` Horner loop -/

lemma shiftPass_length (t0 : ℚ) : ∀ (lo : ℕ) (c : List ℚ),
    (shiftPass t0 lo c).length = c.length := by
  intro lo c
  induction c generalizing lo with
  | nil => cases lo <;> rfl
  | cons a rest ih =>
    cases lo with
    | zero =>
      cases rest with
      | nil => rfl
      | cons b rest' => simpa [shiftPass] using ih 0
    | succ l => simpa [shiftPass] using ih l

lemma passesDown_length (t0 : ℚ) : ∀ (m : ℕ) (c : List ℚ),
    (passesDown t0 m c).length = c.length := by
  intro m
  induction m with
  | zero => intro c; rfl
  | succ m ih =>
    intro c
    simpa [passesDown, shiftPass_length] using ih (shiftPass t0 m c)

/-- Peeling lemma: the passes with `lo ≥ 1` leave the head alone and act as
the full loop on the tail, and the final `lo = 0` pass then mixes the head. -/
lemma passesDown_succ_cons (t0 : ℚ) : ∀ (m : ℕ) (c0 : ℚ) (cs : List ℚ),
    passesDown t0 (m + 1) (c0 :: cs) =
      shiftPass t0 0 (c0 :: passesDown t0 m cs) := by
  intro m
  induction m with
  | zero => intro c0 cs; rfl
  | succ m ih =>
    intro c0 cs
    show passesDown t0 (m + 1) (shiftPass t0 (m + 1) (c0 :: cs)) = _
    rw [show shiftPass t0 (m + 1) (c0 :: cs) = c0 :: shiftPass t0 m cs from rfl,
      ih c0 (shiftPass t0 m cs)]
    rfl

/-- Evaluation of the full (`lo = 0`) pass: it subtracts `t0` times the
"tail polynomial" (the original polynomial with its constant stripped and
divided by the variable). -/
lemma polyEval_shiftPass_zero (t0 y : ℚ) : ∀ c : List ℚ,
    polyEval (shiftPass t0 0 c) y = polyEval c y - t0 * polyEval c.tail y := by
  intro c
  induction c with
  | nil => simp [shiftPass, polyEval]
  | cons a rest ih =>
    cases rest with
    | nil => simp [shiftPass, polyEval]
    | cons b rest' =>
      have ihr := ih
      simp only [shiftPass, polyEval, List.tail_cons] at ihr ⊢
      rw [ihr]
      ring

/-- The Horner loop of `Poly1DType.shift` computes the coefficients of
`y ↦ P(y - t0)`. -/
lemma polyEval_passesDown (t0 y : ℚ) : ∀ c : List ℚ,
    polyEval (passesDown t0 (c.length - 1) c) y = polyEval c (y - t0) := by
  intro c
  induction c with
  | nil => simp [passesDown, polyEval]
  | cons c0 cs ih =>
    cases cs with
    | nil => simp [passesDown, polyEval]
    | cons b rest =>
      have h1 : passesDown t0 ((c0 :: b :: rest).length - 1) (c0 :: b :: rest)
          = shiftPass t0 0 (c0 :: passesDown t0 rest.length (b :: rest)) := by
        simpa using passesDown_succ_cons t0 rest.length c0 (b :: rest)
      have ih' : polyEval (passesDown t0 rest.length (b :: rest)) y
          = polyEval (b :: rest) (y - t0) := by
        simpa using ih
      rw [h1, polyEval_shiftPass_zero]
      simp only [List.tail_cons]
      have e1 : polyEval (c0 :: passesDown t0 rest.length (b :: rest)) y
          = c0 + y * polyEval (passesDown t0 rest.length (b :: rest)) y := rfl
      have e2 : polyEval (c0 :: b :: rest) (y - t0)
          = c0 + (y - t0) * polyEval (b :: rest) (y - t0) := rfl
      rw [e1, e2, ih']
      ring

/-- Evaluation of the scaling step. -/
lemma polyEval_scalePowAux (α y : ℚ) : ∀ (c : List ℚ) (k : ℕ),
    polyEval (scalePowAux α k c) y = α ^ k * polyEval c (α * y) := by
  intro c
  induction c with
  | nil => intro k; simp [scalePowAux, polyEval]
  | cons a rest ih =>
    intro k
    simp only [scalePowAux, polyEval]
    rw [ih (k + 1), pow_succ]
    ring

lemma polyEval_short (c : List ℚ) (h : c.length ≤ 1) (u v : ℚ) :
    polyEval c u = polyEval c v := by
  match c with
  | [] => rfl
  | [a] => simp [polyEval]
  | a :: b :: r => simp at h

lemma polyEval_shiftStage1 (t0 y : ℚ) (c : List ℚ) :
    polyEval (shiftStage1 t0 c) y = polyEval c (y - t0) := by
  unfold shiftStage1
  by_cases h : t0 ≠ 0 ∧ 1 < c.length
  · rw [if_pos h, polyEval_passesDown]
  · rw [if_neg h]
    push_neg at h
    by_cases ht0 : t0 = 0
    · rw [ht0, sub_zero]
    · exact polyEval_short c (h ht0) y (y - t0)

lemma polyEval_shiftStage2 (α y : ℚ) (out : List ℚ) :
    polyEval (shiftStage2 α out) y = polyEval out (α * y) := by
  unfold shiftStage2
  by_cases h : α ≠ 1 ∧ 1 < out.length
  · rw [if_pos h, polyEval_scalePowAux, pow_zero, one_mul]
  · rw [if_neg h]
    push_neg at h
    by_cases hα : α = 1
    · rw [hα, one_mul]
    · exact polyEval_short out (h hα) y (α * y)

/-- What `Poly1DType.shift(t_0, alpha)` actually returns: the coefficients of
the polynomial `y ↦ P(alpha * y - t_0)`. -/
lemma polyEval_shift1d (c : List ℚ) (t0 α y : ℚ) :
    polyEval (shift1d c t0 α) y = polyEval c (α * y - t0) := by
  rw [shift1d, polyEval_shiftStage2, polyEval_shiftStage1]

/-- `shift(0, 1)` short-circuits both stages and returns the coefficients
unchanged. -/
lemma shift1d_zero_one (c : List ℚ) : shift1d c 0 1 = c := by
  simp [shift1d, shiftStage1, shiftStage2]

/-! ## Lemmas about `polyder` and the formal derivative -/

lemma polyderStepAux_eq_enumFrom : ∀ (l : List ℚ) (k : ℕ),
    polyderStepAux k l = (l.enumFrom k).map fun p => (p.1 : ℚ) * p.2 := by
  intro l
  induction l with
  | nil => intro k; rfl
  | cons a rest ih =>
    intro k
    simp only [polyderStepAux, List.enumFrom, List.map_cons]
    rw [ih (k + 1)]

lemma polyderStep_eq_formalDeriv : ∀ c : List ℚ, polyderStep c = formalDeriv c := by
  intro c
  match c with
  | [] => rfl
  | a :: rest =>
    simp only [polyderStep, formalDeriv, List.tail_cons, List.enum_cons,
      List.map_cons]
    rw [polyderStepAux_eq_enumFrom]

lemma polyderStepAux_length : ∀ (l : List ℚ) (k : ℕ),
    (polyderStepAux k l).length = l.length := by
  intro l
  induction l with
  | nil => intro k; rfl
  | cons a rest ih => intro k; simp [polyderStepAux, ih (k + 1)]

lemma formalDeriv_length (c : List ℚ) : (formalDeriv c).length = c.length - 1 := by
  rw [← polyderStep_eq_formalDeriv]
  match c with
  | [] => rfl
  | a :: rest => simp [polyderStep, polyderStepAux_length]

lemma formalDeriv_iterate_length (c : List ℚ) : ∀ k : ℕ,
    (formalDeriv^[k] c).length = c.length - k := by
  intro k
  induction k generalizing c with
  | zero => rfl
  | succ k ih =>
    rw [Function.iterate_succ_apply, ih (formalDeriv c), formalDeriv_length]
    omega

lemma formalDeriv_iterate_nil (c : List ℚ) (k : ℕ) (h : c.length ≤ k) :
    formalDeriv^[k] c = [] := by
  have := formalDeriv_iterate_length c k
  rw [List.eq_nil_iff_forall_not_mem]
  intro a ha
  have := List.length_pos_of_mem ha
  omega

lemma polyderList_eq_iterate (c : List ℚ) (k : ℕ) (h1 : 1 ≤ k)
    (h2 : k < c.length) : polyderList c k = formalDeriv^[k] c := by
  unfold polyderList
  rw [if_neg (by omega), if_neg (by omega)]
  have hfun : polyderStep = formalDeriv := funext polyderStep_eq_formalDeriv
  rw [hfun]

lemma polyEval_polyderList (c : List ℚ) (k : ℕ) (h1 : 1 ≤ k) (x : ℚ) :
    polyEval (polyderList c k) x = polyEval (formalDeriv^[k] c) x := by
  by_cases h2 : k < c.length
  · rw [polyderList_eq_iterate c k h1 h2]
  · push_neg at h2
    rw [formalDeriv_iterate_nil c k h2]
    unfold polyderList
    rw [if_neg (by omega), if_pos (by omega)]
    match c with
    | [] => rfl
    | a :: rest => simp [polyEval]

/-! ## Lemmas about the projection preconditions -/

/-- When a COA projection is cached, `can_project_coordinates` returns
`True` at once, reading no metadata. -/
lemma can_project_cached (s : SICDType) (c : COAParams)
    (h : s.coa_projection = some c) :
    can_project_coordinates s = ⟨true, [], []⟩ := by
  unfold can_project_coordinates
  rw [h]

/-! ## Claim theorems -/

/-- Claim C1 (code bug, evaluation at the failing input): because the axis-2
Horner loop of `Poly2DType.shift` subtracts `t1_shift` (blocks.py line 1170)
where its guard tests `t2_shift`, the combined call
`shift(1, 1, 1, 1)` on `P = x1*x2` (coefficients `[[0,0],[0,1]]`) yields
`[[1,-1],[-1,1]]`, while shifting axis 1 alone and then axis 2 alone yields
`[[0,-1],[0,1]]` — the claim's order-independence equality fails. -/
theorem poly2d_shift_combined_differs_from_sequential :
    shift2d [[0, 0], [0, 1]] 1 1 1 1 = [[1, -1], [-1, 1]]
  ∧ shift2d (shift2d [[0, 0], [0, 1]] 1 1 0 1) 0 1 1 1 = [[0, -1], [0, 1]] := by
  constructor <;>
    norm_num [shift2d, passesDownRows, shiftPassRows, rowSub, rowSmul, numCols,
      passesDown, shiftPass, scalePowRowsAux, scalePowAux]

/-- Claim C2 (code bug, evaluation at the failing input): on a fully
populated product with `Grid.Type = 'PLANE'` and both `UVectECF` unit
vectors set, `can_project_coordinates` returns `False` with the
"Unhandled Grid.Type" error, because the source's
`Grid.Type == ['XRGYCR', 'XCTYAT', 'PLANE']` comparison (a str-vs-list
equality) is always false in Python. -/
theorem can_project_plane_grid_returns_false :
    can_project_coordinates sicdPlaneEx = ⟨false, ["Unhandled Grid.Type"], []⟩ := by
  decide

/-- Claim C4 (counterexample): the claimed relation `P(x) = Q(alpha*(x - t_0))`
for `Q = P.shift(t_0, alpha)` fails already for `P(x) = x`, `t_0 = 1`,
`alpha = 1` at `x = 0`: the left side is `0` and the right side is `-2`. -/
theorem poly1d_shift_claimed_relation_fails :
    polyEval (shift1d [0, 1] 1 1) (1 * ((0 : ℚ) - 1)) ≠ polyEval [0, 1] 0 := by
  norm_num [shift1d, shiftStage1, shiftStage2, passesDown, shiftPass,
    scalePowAux, polyEval]

/-- Claim C4 (amended): `P.shift(t_0, alpha)` returns the coefficient array
of the polynomial `Q` with `Q(y) = P(alpha*y - t_0)` — an exact identity of
polynomials over exact arithmetic — and `P.shift(0, 1)` returns a
coefficient array exactly equal to `P`'s coefficients. -/
theorem poly1d_shift_amended (c : List ℚ) (t0 α y : ℚ) :
    polyEval (shift1d c t0 α) y = polyEval c (α * y - t0)
  ∧ shift1d c 0 1 = c :=
  ⟨polyEval_shift1d c t0 α y, shift1d_zero_one c⟩

/-- Claim C3: with no cached projection, `can_project_coordinates` fails
closed and reports the first missing field: when `GeoData` is populated but
`GeoData.SCP` is not (the other fields of `s` arbitrary), it returns `False`
citing exactly `GeoData.SCP`; and on a product `t` with every required field
populated (here a recognized `RGZERO` grid) except `Grid.TimeCOAPoly`, it
returns `True` with no error and only the `Grid.TimeCOAPoly` warning. -/
theorem can_project_first_missing_field_and_timecoa_warning
    {s t : SICDType} {g tg : GeoDataType} {scp : SCPType} {imd : ImageDataType}
    {px : RowColType} {pos : PositionType} {grid : GridType}
    {row col : DirParamType} {rma : RMAType} {inca : INCAType}
    (hs1 : s.coa_projection = none)
    (hs2 : s.GeoData = some g) (hs3 : g.SCP = none)
    (ht0 : t.coa_projection = none)
    (ht1 : t.GeoData = some tg) (ht2 : tg.SCP = some scp) (ht3 : scp.ECF = some ())
    (ht4 : t.ImageData = some imd) (ht5 : imd.FirstRow.isSome)
    (ht6 : imd.FirstCol.isSome)
    (ht7 : imd.SCPPixel = some px) (ht8 : px.Row.isSome) (ht9 : px.Col.isSome)
    (ht10 : t.Position = some pos) (ht11 : pos.ARPPoly = some ())
    (ht12 : t.Grid = some grid) (ht13 : grid.TimeCOAPoly = none)
    (ht14 : grid.Row = some row) (ht15 : row.SS.isSome)
    (ht16 : grid.Col = some col) (ht17 : col.SS.isSome)
    (ht18 : grid.Type' = some "RGZERO")
    (ht19 : t.RMA = some rma) (ht20 : rma.INCA = some inca)
    (ht21 : inca.R_CA_SCP.isSome) (ht22 : inca.TimeCAPoly = some ())
    (ht23 : inca.DRateSFPoly = some ()) :
    can_project_coordinates s = ⟨false, ["GeoData.SCP"], []⟩
  ∧ can_project_coordinates t = ⟨true, [], ["Grid.TimeCOAPoly"]⟩ := by
  obtain ⟨fr, hfr⟩ := Option.isSome_iff_exists.mp ht5
  obtain ⟨fc, hfc⟩ := Option.isSome_iff_exists.mp ht6
  obtain ⟨pr, hpr⟩ := Option.isSome_iff_exists.mp ht8
  obtain ⟨pc, hpc⟩ := Option.isSome_iff_exists.mp ht9
  obtain ⟨rss, hrss⟩ := Option.isSome_iff_exists.mp ht15
  obtain ⟨css, hcss⟩ := Option.isSome_iff_exists.mp ht17
  obtain ⟨rca, hrca⟩ := Option.isSome_iff_exists.mp ht21
  constructor
  · simp [can_project_coordinates, hs1, hs2, hs3]
  · simp [can_project_coordinates, canProjectGridDispatch, ht0, ht1, ht2, ht3,
      ht4, hfr, hfc, ht7, hpr, hpc, ht10, ht11, ht12, ht13, ht14, hrss, ht16,
      hcss, ht18, ht19, ht20, hrca, ht22, ht23]

/-- Witness for C3: the concrete missing-SCP product fails citing
`GeoData.SCP`, and the concrete `RGZERO` product without `Grid.TimeCOAPoly`
succeeds with only the warning. -/
theorem can_project_first_missing_field_and_timecoa_warning_witness :
    can_project_coordinates sicdScpMissingEx = ⟨false, ["GeoData.SCP"], []⟩
  ∧ can_project_coordinates sicdRGZeroNoTimeCOAEx
      = ⟨true, [], ["Grid.TimeCOAPoly"]⟩ :=
  @can_project_first_missing_field_and_timecoa_warning
    sicdScpMissingEx sicdRGZeroNoTimeCOAEx ⟨none⟩ ⟨some ⟨some ()⟩⟩ ⟨some ()⟩
    ⟨some 0, some 0, some ⟨some 10, some 20⟩⟩ ⟨some 10, some 20⟩ ⟨some ()⟩
    ⟨none, some ⟨some 1, some ()⟩, some ⟨some 1, some ()⟩, some "RGZERO"⟩
    ⟨some 1, some ()⟩ ⟨some 1, some ()⟩ ⟨some ⟨some 800000, some (), some ()⟩⟩
    ⟨some 800000, some (), some ()⟩
    rfl rfl rfl rfl rfl rfl rfl rfl rfl rfl rfl rfl rfl rfl rfl rfl rfl rfl
    rfl rfl rfl rfl rfl rfl rfl rfl rfl

/-- Claim C5: on a `RGAZIM`/`PFA` product in which `PFA` is populated but
`PFA.PolarAngPoly` is not, with all the other projection-required fields
populated, `can_project_coordinates` returns `False` and the logged reason
cites `PFA.PolarAngPoly` (and nothing else). -/
theorem can_project_pfa_missing_polar_ang_poly
    {u : SICDType} {g : GeoDataType} {scp : SCPType} {imd : ImageDataType}
    {px : RowColType} {pos : PositionType} {grid : GridType}
    {row col : DirParamType} {imf : ImageFormationType} {pfa : PFAType}
    (h0 : u.coa_projection = none)
    (h1 : u.GeoData = some g) (h2 : g.SCP = some scp) (h3 : scp.ECF = some ())
    (h4 : u.ImageData = some imd) (h5 : imd.FirstRow.isSome)
    (h6 : imd.FirstCol.isSome)
    (h7 : imd.SCPPixel = some px) (h8 : px.Row.isSome) (h9 : px.Col.isSome)
    (h10 : u.Position = some pos) (h11 : pos.ARPPoly = some ())
    (h12 : u.Grid = some grid)
    (h13 : grid.Row = some row) (h14 : row.SS.isSome)
    (h15 : grid.Col = some col) (h16 : col.SS.isSome)
    (h17 : grid.Type' = some "RGAZIM")
    (h18 : u.ImageFormation = some imf) (h19 : imf.ImageFormAlgo = some "PFA")
    (h20 : u.PFA = some pfa) (h21 : pfa.PolarAngPoly = none) :
    (can_project_coordinates u).ok = false
  ∧ (can_project_coordinates u).errors = ["PFA.PolarAngPoly"] := by
  obtain ⟨fr, hfr⟩ := Option.isSome_iff_exists.mp h5
  obtain ⟨fc, hfc⟩ := Option.isSome_iff_exists.mp h6
  obtain ⟨pr, hpr⟩ := Option.isSome_iff_exists.mp h8
  obtain ⟨pc, hpc⟩ := Option.isSome_iff_exists.mp h9
  obtain ⟨rss, hrss⟩ := Option.isSome_iff_exists.mp h14
  obtain ⟨css, hcss⟩ := Option.isSome_iff_exists.mp h16
  constructor <;>
    simp [can_project_coordinates, canProjectGridDispatch, h0, h1, h2, h3, h4,
      hfr, hfc, h7, hpr, hpc, h10, h11, h12, h13, hrss, h15, hcss, h17, h18,
      h19, h20, h21]

/-- Witness for C5: the concrete PFA product without `PolarAngPoly`. -/
theorem can_project_pfa_missing_polar_ang_poly_witness :
    (can_project_coordinates sicdPFANoPolarAngEx).ok = false
  ∧ (can_project_coordinates sicdPFANoPolarAngEx).errors
      = ["PFA.PolarAngPoly"] :=
  can_project_pfa_missing_polar_ang_poly rfl rfl rfl rfl rfl rfl rfl rfl rfl
    rfl rfl rfl rfl rfl rfl rfl rfl rfl rfl rfl rfl rfl

/-- Claim C6: the `Poly1DType.Coefs` setter stores exactly the 1-D arrays —
assigning `None`, a non-array scalar, or a 2-D array raises `ValueError` —
and `shift`/`derivative` leave the instance's coefficient array untouched,
returning fresh data (the instance state is modelled explicitly and is
returned unchanged by both operations). -/
theorem poly1d_coefs_one_dim_and_pure_ops :
    (∀ (v : PyValue) (c : List ℚ),
      coefsSetter1D v = Except.ok c ↔ v = PyValue.arr1 c)
  ∧ (∀ (state : List ℚ) (t0 α : ℚ), (shiftOp state t0 α).2 = state)
  ∧ (∀ (state : List ℚ) (m : ℤ), (derivativeOp state m).2 = state) := by
  refine ⟨fun v c => ?_, fun _ _ _ => rfl, fun _ _ => rfl⟩
  cases v <;> simp [coefsSetter1D]

/-- Witness for C6: a 2-D assignment is rejected, a 1-D assignment is stored
as given, and a shift leaves the stored coefficients unchanged. -/
theorem poly1d_coefs_one_dim_and_pure_ops_witness :
    coefsSetter1D (PyValue.arr2 [[1, 2]]) ≠ Except.ok [1, 2]
  ∧ coefsSetter1D (PyValue.arr1 [1, 2]) = Except.ok [1, 2]
  ∧ (shiftOp [1, 2] 3 2).2 = [1, 2] := by
  refine ⟨fun hok => ?_, ?_, poly1d_coefs_one_dim_and_pure_ops.2.1 [1, 2] 3 2⟩
  · have := (poly1d_coefs_one_dim_and_pure_ops.1 (PyValue.arr2 [[1, 2]]) [1, 2]).mp hok
    simp at this
  · exact (poly1d_coefs_one_dim_and_pure_ops.1 (PyValue.arr1 [1, 2]) [1, 2]).mpr rfl

/-- Claim C7: `Poly1DType.derivative` at order 0 returns the coefficients
unchanged; for `k ≥ 1` it returns `polyder`'s k-fold derivative, which
agrees with the k-fold textbook formal derivative of the coefficient
sequence (exactly below the degree bound, and as the zero polynomial at or
above it); and a negative order fails with the `ValueError` rather than
returning coefficients. -/
theorem poly1d_derivative_order_spec (c : List ℚ) (m : ℤ) :
    polyder c 0 = Except.ok c
  ∧ (∀ k : ℕ, 1 ≤ k → polyder c (k : ℤ) = Except.ok (polyderList c k))
  ∧ (∀ k : ℕ, 1 ≤ k → k < c.length → polyderList c k = formalDeriv^[k] c)
  ∧ (∀ k : ℕ, 1 ≤ k → ∀ x : ℚ,
      polyEval (polyderList c k) x = polyEval (formalDeriv^[k] c) x)
  ∧ (m < 0 → polyder c m
      = Except.error "ValueError: The order of derivation must be non-negative") := by
  refine ⟨?_, fun k hk => ?_,
    fun k hk hlen => polyderList_eq_iterate c k hk hlen,
    fun k hk x => polyEval_polyderList c k hk x, fun hm => ?_⟩
  · unfold polyder
    rw [if_neg (by omega)]
    simp [polyderList]
  · unfold polyder
    rw [if_neg (by omega)]
    simp
  · unfold polyder
    rw [if_pos hm]

/-- Witness for C7: order 0 is the identity on `[5, 3, 2]`, order 1 is the
formal derivative, and order `-1` is rejected. -/
theorem poly1d_derivative_order_spec_witness :
    polyder [5, 3, 2] 0 = Except.ok [5, 3, 2]
  ∧ polyderList [5, 3, 2] 1 = formalDeriv^[1] [5, 3, 2]
  ∧ polyder [5, 3, 2] (-1)
      = Except.error "ValueError: The order of derivation must be non-negative" :=
  ⟨(poly1d_derivative_order_spec [5, 3, 2] (-1)).1,
   (poly1d_derivative_order_spec [5, 3, 2] (-1)).2.2.1 1 (by norm_num) (by norm_num),
   (poly1d_derivative_order_spec [5, 3, 2] (-1)).2.2.2.2 (by norm_num)⟩

/-- Claim C8: `ImageFormType` returns the first populated attribute among
`RgAzComp`, `PFA`, `RMA` and `'OTHER'` when none is populated; and
`_validate_image_form` returns `False` whenever more than one of the three
algorithm families is populated at once. -/
theorem image_form_type_and_exclusivity_validated (s : SICDType) :
    (s.RgAzComp.isSome → ImageFormType s = "RgAzComp")
  ∧ (s.RgAzComp = none → s.PFA.isSome → ImageFormType s = "PFA")
  ∧ (s.RgAzComp = none → s.PFA = none → s.RMA.isSome → ImageFormType s = "RMA")
  ∧ (s.RgAzComp = none → s.PFA = none → s.RMA = none →
      ImageFormType s = "OTHER")
  ∧ (1 < populatedAlgCount s → (validate_image_form s).1 = false) := by
  refine ⟨fun h1 => ?_, fun h1 h2 => ?_, fun h1 h2 h3 => ?_,
    fun h1 h2 h3 => ?_, fun hcount => ?_⟩
  · simp [ImageFormType, choiceCollection, List.find?, getAttrPopulated, h1]
  · simp [ImageFormType, choiceCollection, List.find?, getAttrPopulated, h1, h2]
  · simp [ImageFormType, choiceCollection, List.find?, getAttrPopulated,
      h1, h2, h3]
  · simp [ImageFormType, choiceCollection, List.find?, getAttrPopulated,
      h1, h2, h3]
  · cases hImf : s.ImageFormation with
    | none => simp [validate_image_form, hImf]
    | some imf =>
      cases hR : s.RgAzComp <;> cases hP : s.PFA <;> cases hM : s.RMA <;>
        simp_all [validate_image_form, populatedAlgCount, choiceCollection,
          getAttrPopulated, List.filter]

/-- Witness for C8: a product with both `RgAzComp` and `PFA` populated has
`ImageFormType = 'RgAzComp'` (the first populated) and fails validation. -/
theorem image_form_type_and_exclusivity_validated_witness :
    ImageFormType sicdTwoAlgsEx = "RgAzComp"
  ∧ (validate_image_form sicdTwoAlgsEx).1 = false :=
  ⟨(image_form_type_and_exclusivity_validated sicdTwoAlgsEx).1 rfl,
   (image_form_type_and_exclusivity_validated sicdTwoAlgsEx).2.2.2.2 (by decide)⟩

/-- Claim C9: whenever a COA projection object is cached
(`_coa_projection is not None`), `can_project_coordinates` returns `True`
immediately, logging nothing and examining no metadata field — the metadata
(`GeoData`, `Position.ARPPoly`, `Grid`, …) is arbitrary here, so the result
is `True` even if required fields were removed after the projection was
defined. -/
theorem can_project_true_when_projection_cached (s : SICDType) (c : COAParams)
    (h : s.coa_projection = some c) :
    can_project_coordinates s = ⟨true, [], []⟩ :=
  can_project_cached s c h

/-- Witness for C9: a SICD carrying a cached projection and no metadata at
all still projects. -/
theorem can_project_true_when_projection_cached_witness :
    sicdCachedEx.coa_projection = some pEx
  ∧ can_project_coordinates sicdCachedEx = ⟨true, [], []⟩ :=
  ⟨rfl, can_project_true_when_projection_cached sicdCachedEx pEx rfl⟩

/-- Claim C10: `define_coa_projection` never raises (it is a total function
here) and is a no-op on the cached state in both failure modes: when
`can_project_coordinates()` is false it returns with the cache unchanged,
and when a projection is already defined and `overide` is false it returns
without replacing it. -/
theorem define_coa_projection_failure_modes_noop (s : SICDType) (p : COAParams)
    (overide : Bool) :
    ((can_project_coordinates s).ok = false →
      define_coa_projection s p overide = s)
  ∧ (∀ c : COAParams, s.coa_projection = some c →
      define_coa_projection s p false = s) := by
  constructor
  · intro h
    unfold define_coa_projection
    rw [if_pos h]
  · intro c hc
    unfold define_coa_projection
    rw [can_project_cached s c hc]
    rw [if_neg (by simp)]
    rw [if_pos ⟨by simp [hc], rfl⟩]

/-- Witness for C10: the empty SICD cannot project, so defining a projection
on it changes nothing; and a SICD with a cached projection is unchanged when
`overide` is false. -/
theorem define_coa_projection_failure_modes_noop_witness :
    define_coa_projection sicdEmpty pEx true = sicdEmpty
  ∧ define_coa_projection sicdCachedEx pEx false = sicdCachedEx :=
  ⟨(define_coa_projection_failure_modes_noop sicdEmpty pEx true).1 (by decide),
   (define_coa_projection_failure_modes_noop sicdCachedEx pEx false).2 pEx rfl⟩

end Sarpy
